import Mathlib

/-!
Verification of the core data-combination, scoring, analytics and
recommendation logic of the San Diego surf dashboard
(`surf_dashboard3.py`, class `FixedSurfDashboard`).

The Python functions are shallowly embedded:

* a JSON sample (an element of an hourly series) is `Sample`:
  a number (modelled as `ℚ`), a string, or `null`;
* a Python dict with string keys is an association list together with
  `dictLookup` (first match) and `dictInsert` (update in place keeping the
  position of an existing key, append otherwise) — exactly the observable
  behaviour of `d[k]` and `d[k] = v` on dicts with unique keys;
* a forecast record (the JSON object returned by the Open-Meteo APIs) is a
  structure with its `hourly` and `daily` sections (each an optional dict of
  series) plus the remaining opaque top-level fields; Python truthiness of
  the record (`if not marine_data`) is `ForecastRecord.truthy`;
* Python exceptions are an explicit `Except PyErr` value threaded through
  the translation of every `try` block.
-/

/-- Python exception kinds that the translated code can raise or catch. -/
inductive PyErr where
  | keyError
  | indexError
  | typeError
  | valueError
  | attributeError
deriving DecidableEq, Repr

/-- One element of an hourly series in the JSON data: a number (floats are
modelled as rationals), a string (e.g. the entries of the `time` series), or
JSON `null` (Python `None`). -/
inductive Sample where
  | num (q : ℚ)
  | str (s : String)
  | null
deriving DecidableEq, Repr

/-- Lookup in a Python dict modelled as an association list (first match). -/
def dictLookup (k : String) : List (String × α) → Option α
  | [] => none
  | (k', v) :: t => if k' = k then some v else dictLookup k t

/-- Assignment `d[k] = v` on a Python dict: an existing key keeps its
position and gets the new value, a new key is appended at the end. -/
def dictInsert (k : String) (v : α) : List (String × α) → List (String × α)
  | [] => [(k, v)]
  | (k', v') :: t => if k' = k then (k, v) :: t else (k', v') :: dictInsert k v t

/-- An `hourly` (or `daily`) section: a dict from metric name to its series. -/
abbrev Section := List (String × List Sample)

/-- A forecast record: the JSON object returned by the marine / weather
APIs.  `hourly = some h` means the key `'hourly'` is present with dict `h`;
`other` holds the remaining top-level fields (latitude, units, ...) as
opaque strings. -/
structure ForecastRecord where
  hourly : Option Section
  daily : Option Section
  other : List (String × String)
deriving DecidableEq, Repr

/-- Python truthiness of a forecast record: a dict is truthy iff it has at
least one key. -/
def ForecastRecord.truthy (r : ForecastRecord) : Bool :=
  r.hourly.isSome || r.daily.isSome || !r.other.isEmpty

/-- The record with no keys at all: the Python dict `{}` (falsy). -/
def emptyRecord : ForecastRecord := ⟨none, none, []⟩

/-- Truthiness of an optional record (`None` and `{}` are both falsy). -/
def truthyOpt : Option ForecastRecord → Bool
  | none => false
  | some r => r.truthy

/-- The three metric names copied from the weather data by
`combine_marine_weather_data`. -/
def windKeys : List String := ["wind_speed_10m", "wind_direction_10m", "wind_gusts_10m"]

/-- The loop `for key in [...]: if key in weather_data['hourly']:
combined_data['hourly'][key] = weather_data['hourly'][key]` of
`combine_marine_weather_data`, acting on the hourly dict `base`. -/
def windUpdate (wh base : Section) : Section :=
  windKeys.foldl
    (fun acc k =>
      match dictLookup k wh with
      | some v => dictInsert k v acc
      | none => acc)
    base

/-- `FixedSurfDashboard.combine_marine_weather_data`.

The translation returns `(result, marine after the call, weather after the
call)`.  `combined_data = marine_data.copy()` is a *shallow* copy: the value
of the `'hourly'` key of the copy is the very same dict object as
`marine_data['hourly']`, so the later `combined_data['hourly'][key] = ...`
assignments also mutate `marine_data` whenever marine already had an
`'hourly'` key.  When marine lacks an `'hourly'` key the code installs a
fresh `{}` on the copy only, and marine is unchanged. -/
def combine_marine_weather_data (marine weather : Option ForecastRecord) :
    Option ForecastRecord × Option ForecastRecord × Option ForecastRecord :=
  if truthyOpt marine = false then (none, marine, weather)
  else
    match marine with
    | none => (none, none, weather)
    | some m =>
      match weather with
      | some w =>
        match w.hourly with
        | some wh =>
          let newHourly := windUpdate wh (m.hourly.getD [])
          let res : ForecastRecord := { m with hourly := some newHourly }
          (some res, some (if m.hourly.isSome then res else m), weather)
        | none => (some m, some m, weather)
      | none => (some m, some m, weather)

/-- The `'hourly'` metric dict lookup on a record: `r['hourly'][k]` when the
section exists, nothing otherwise. -/
def hourlyLookup (r : ForecastRecord) (k : String) : Option (List Sample) :=
  match r.hourly with
  | some h => dictLookup k h
  | none => none

/-- The series that `combine_marine_weather_data` takes from the weather
argument for key `k`: present iff weather is a record with an hourly
section, `k` is one of the three wind metrics and `k` is a key of that
section. -/
def windFromWeather (weather : Option ForecastRecord) (k : String) :
    Option (List Sample) :=
  match weather with
  | some w =>
    match w.hourly with
    | some wh => if k ∈ windKeys then dictLookup k wh else none
    | none => none
  | none => none

theorem dictLookup_dictInsert (k k' : String) (v : α) (l : List (String × α)) :
    dictLookup k (dictInsert k' v l) =
      if k' = k then some v else dictLookup k l := by
  induction l with
  | nil => simp [dictInsert, dictLookup]
  | cons hd tl ih =>
    obtain ⟨k₀, v₀⟩ := hd
    by_cases h : k₀ = k'
    · subst h
      by_cases hk : k₀ = k <;> simp [dictInsert, dictLookup, hk]
    · by_cases hk : k₀ = k
      · subst hk
        have : ¬ k' = k₀ := fun he => h he.symm
        simp [dictInsert, dictLookup, h, this]
      · simp [dictInsert, dictLookup, h, hk, ih]

theorem dictLookup_foldl_windStep (wh : Section) (keys : List String)
    (base : Section) (k : String) :
    dictLookup k
        (keys.foldl
          (fun acc kk =>
            match dictLookup kk wh with
            | some v => dictInsert kk v acc
            | none => acc)
          base) =
      if k ∈ keys ∧ (dictLookup k wh).isSome then dictLookup k wh
      else dictLookup k base := by
  induction keys generalizing base with
  | nil => simp
  | cons k₀ rest ih =>
    simp only [List.foldl_cons]
    rw [ih]
    by_cases hmem : k ∈ rest ∧ (dictLookup k wh).isSome
    · simp [hmem, List.mem_cons, hmem.1]
    · by_cases hk : k₀ = k
      · subst hk
        cases hwh : dictLookup k₀ wh with
        | none => simp [hmem, hwh, dictLookup_dictInsert]
        | some v => simp [hmem, hwh, dictLookup_dictInsert]
      · cases hwh : dictLookup k₀ wh with
        | none =>
          simp only [hmem, if_false]
          have : (k ∈ k₀ :: rest ∧ (dictLookup k wh).isSome) ↔
              (k ∈ rest ∧ (dictLookup k wh).isSome) := by
            constructor
            · rintro ⟨hm, hs⟩
              rcases List.mem_cons.mp hm with h | h
              · exact absurd h.symm hk
              · exact ⟨h, hs⟩
            · rintro ⟨hm, hs⟩
              exact ⟨List.mem_cons.mpr (Or.inr hm), hs⟩
          rw [if_congr this rfl rfl]
          simp [hmem]
        | some v =>
          simp only [hmem, if_false, dictLookup_dictInsert, hk, if_false]
          have : (k ∈ k₀ :: rest ∧ (dictLookup k wh).isSome) ↔
              (k ∈ rest ∧ (dictLookup k wh).isSome) := by
            constructor
            · rintro ⟨hm, hs⟩
              rcases List.mem_cons.mp hm with h | h
              · exact absurd h.symm hk
              · exact ⟨h, hs⟩
            · rintro ⟨hm, hs⟩
              exact ⟨List.mem_cons.mpr (Or.inr hm), hs⟩
          rw [if_congr this rfl rfl]
          simp [hmem]

theorem dictLookup_windUpdate (wh base : Section) (k : String) :
    dictLookup k (windUpdate wh base) =
      if k ∈ windKeys ∧ (dictLookup k wh).isSome then dictLookup k wh
      else dictLookup k base :=
  dictLookup_foldl_windStep wh windKeys base k

/-- Condition under which `combine_marine_weather_data` writes into its
`marine` argument: the shallow copy shares the hourly dict, so marine is
written to exactly when marine is truthy with an `'hourly'` key and weather
is a record with an `'hourly'` key. -/
def sharesHourly (marine weather : Option ForecastRecord) : Bool :=
  truthyOpt marine &&
    (match marine with
     | some m => m.hourly.isSome
     | none => false) &&
    (match weather with
     | some w => w.hourly.isSome
     | none => false)

/-- Claim C1 (counterexample): `combine_marine_weather_data` is not free of
side effects.  With a marine record owning an hourly section and a weather
record carrying a wind-speed series, after the call the marine argument no
longer holds its original hourly section: the shared (shallow-copied)
hourly dict has gained the `wind_speed_10m` metric. -/
theorem combine_mutates_marine_counterexample :
    (combine_marine_weather_data
        (some ⟨some [("wave_height", [Sample.num 1])], none, []⟩)
        (some ⟨some [("wind_speed_10m", [Sample.num 5])], none, []⟩)).2.1 ≠
      some ⟨some [("wave_height", [Sample.num 1])], none, []⟩ := by
  decide

/-- Claim C1 (amended): `combine_marine_weather_data` never mutates its
weather argument, and it mutates its marine argument exactly when the
shallow copy shares marine's hourly dict (marine truthy with an `'hourly'`
key, weather present with an `'hourly'` key); in that case marine ends up
equal to the returned record, and in every other case marine is unchanged.
The result is built over the shared hourly dict, not over an owned deep
copy. -/
theorem combine_frame_amended (marine weather : Option ForecastRecord) :
    (combine_marine_weather_data marine weather).2.2 = weather ∧
      (combine_marine_weather_data marine weather).2.1 =
        (if sharesHourly marine weather then
          (combine_marine_weather_data marine weather).1
        else marine) := by
  cases marine with
  | none => simp [combine_marine_weather_data, truthyOpt, sharesHourly]
  | some m =>
    by_cases hm : m.truthy
    · cases weather with
      | none =>
        simp [combine_marine_weather_data, truthyOpt, hm, sharesHourly]
      | some w =>
        cases hw : w.hourly with
        | none =>
          simp [combine_marine_weather_data, truthyOpt, hm, sharesHourly, hw]
        | some wh =>
          cases hmh : m.hourly with
          | none =>
            simp [combine_marine_weather_data, truthyOpt, hm, sharesHourly,
              hw, hmh]
          | some mh =>
            simp [combine_marine_weather_data, truthyOpt, hm, sharesHourly,
              hw, hmh]
    · have hm' : m.truthy = false := by
        cases h : m.truthy
        · rfl
        · exact absurd h hm
      simp [combine_marine_weather_data, truthyOpt, hm', sharesHourly]

/-- Claim C3 (counterexample): the result is not present for every present
marine record.  The empty record `{}` is present yet falsy in Python, so
`if not marine_data` makes the function return `None` even though marine is
present and weather carries an hourly wind metric the claim says should be
merged. -/
theorem combine_empty_marine_counterexample :
    (combine_marine_weather_data (some emptyRecord)
        (some ⟨some [("wind_speed_10m", [Sample.num 5])], none, []⟩)).1 =
      none := by
  decide

/-- Claim C3 (amended): the result of `combine_marine_weather_data` is
absent exactly when marine is absent or is the empty (falsy) record;
otherwise the result keeps marine's daily section and remaining top-level
fields, and its hourly metrics are marine's, except that each of the three
wind metrics present in weather's hourly section overrides (or adds to) the
same-named metric with weather's series. -/
theorem combine_result_amended (marine weather : Option ForecastRecord) :
    ((combine_marine_weather_data marine weather).1 = none ↔
      marine = none ∨ marine = some emptyRecord) ∧
      (∀ m : ForecastRecord, marine = some m → m.truthy = true →
        ∃ r : ForecastRecord,
          (combine_marine_weather_data marine weather).1 = some r ∧
            r.daily = m.daily ∧ r.other = m.other ∧
            ∀ k : String,
              hourlyLookup r k =
                ((windFromWeather weather k).orElse
                  (fun _ => hourlyLookup m k))) := by
  have htruthy : ∀ m : ForecastRecord, (m.truthy = false ↔ m = emptyRecord) := by
    intro m
    obtain ⟨mh, md, mo⟩ := m
    cases mh <;> cases md <;> cases mo <;>
      simp [ForecastRecord.truthy, emptyRecord, List.isEmpty]
  constructor
  · cases marine with
    | none => simp [combine_marine_weather_data, truthyOpt]
    | some m =>
      by_cases hm : m.truthy
      · have hne : m ≠ emptyRecord := by
          intro he
          rw [(htruthy m).mpr he] at hm
          simp at hm
        cases weather with
        | none =>
          simp [combine_marine_weather_data, truthyOpt, hm, hne]
        | some w =>
          cases hw : w.hourly with
          | none => simp [combine_marine_weather_data, truthyOpt, hm, hw, hne]
          | some wh => simp [combine_marine_weather_data, truthyOpt, hm, hw, hne]
      · have hm' : m.truthy = false := by
          cases h : m.truthy
          · rfl
          · exact absurd h hm
        have he := (htruthy m).mp hm'
        subst he
        simp [combine_marine_weather_data, truthyOpt, ForecastRecord.truthy,
          emptyRecord, List.isEmpty]
  · rintro m rfl hm
    cases weather with
    | none =>
      refine ⟨m, ?_, rfl, rfl, ?_⟩
      · simp [combine_marine_weather_data, truthyOpt, hm]
      · intro k
        simp [windFromWeather, Option.orElse]
    | some w =>
      cases hw : w.hourly with
      | none =>
        refine ⟨m, ?_, rfl, rfl, ?_⟩
        · simp [combine_marine_weather_data, truthyOpt, hm, hw]
        · intro k
          simp [windFromWeather, hw, Option.orElse]
      | some wh =>
        refine ⟨{ m with hourly := some (windUpdate wh (m.hourly.getD [])) },
          ?_, rfl, rfl, ?_⟩
        · simp [combine_marine_weather_data, truthyOpt, hm, hw]
        · intro k
          simp only [hourlyLookup, windFromWeather, hw, dictLookup_windUpdate]
          by_cases hk : k ∈ windKeys ∧ (dictLookup k wh).isSome
          · cases hlk : dictLookup k wh with
            | none => rw [hlk] at hk; simp at hk
            | some v => simp [hk, hk.1, hlk, Option.orElse]
          · rcases Decidable.not_and_iff_or_not.mp hk with hnk | hns
            · cases hmh : m.hourly with
              | none =>
                simp [hk, hnk, Option.orElse, hmh, Option.getD, dictLookup]
              | some mh => simp [hk, hnk, Option.orElse, hmh, Option.getD]
            · have hlk : dictLookup k wh = none := by
                cases hlk : dictLookup k wh with
                | none => rfl
                | some v => rw [hlk] at hns; simp at hns
              by_cases hkm : k ∈ windKeys
              · cases hmh : m.hourly with
                | none =>
                  simp [hk, hkm, hlk, Option.orElse, hmh, Option.getD, dictLookup]
                | some mh => simp [hk, hkm, hlk, Option.orElse, hmh, Option.getD]
              · cases hmh : m.hourly with
                | none =>
                  simp [hk, hkm, Option.orElse, hmh, Option.getD, dictLookup]
                | some mh => simp [hk, hkm, Option.orElse, hmh, Option.getD]

/-- Witness for `combine_result_amended` at a concrete marine/weather pair:
marine has a wave-height metric, weather overrides nothing but adds a
wind-speed metric. -/
theorem combine_result_amended_witness :
    ∃ r : ForecastRecord,
      (combine_marine_weather_data
          (some ⟨some [("wave_height", [Sample.num 1])], none, []⟩)
          (some ⟨some [("wind_speed_10m", [Sample.num 5])], none, []⟩)).1 =
        some r ∧
        r.daily = (none : Option Section) ∧ r.other = [] ∧
        ∀ k : String,
          hourlyLookup r k =
            ((windFromWeather
                (some ⟨some [("wind_speed_10m", [Sample.num 5])], none, []⟩) k).orElse
              (fun _ =>
                hourlyLookup ⟨some [("wave_height", [Sample.num 1])], none, []⟩ k)) :=
  (combine_result_amended
      (some ⟨some [("wave_height", [Sample.num 1])], none, []⟩)
      (some ⟨some [("wind_speed_10m", [Sample.num 5])], none, []⟩)).2
    ⟨some [("wave_height", [Sample.num 1])], none, []⟩ rfl rfl

/-- `user_prefs`: the dict built in the sidebar, with keys `skill_level`,
`board_length` and `break_type`. -/
structure UserPreferences where
  skill_level : String
  board_length : String
  break_type : String
deriving DecidableEq, Repr

/-- Python `l[0]`: the first element, or an `IndexError` on an empty list. -/
def pyIndex0 : List Sample → Except PyErr Sample
  | [] => .error .indexError
  | x :: _ => .ok x

/-- Python `d[k]` on an hourly dict: the value, or a `KeyError`. -/
def pyDictGet (k : String) (d : Section) : Except PyErr (List Sample) :=
  match dictLookup k d with
  | some v => .ok v
  | none => .error .keyError

/-- Using a sample as a number in an order comparison against an int
literal: numbers compare, `None` and strings raise a `TypeError`. -/
def numVal : Sample → Except PyErr ℚ
  | .num q => .ok q
  | .str _ => .error .typeError
  | .null => .error .typeError

/-- The wave-height block of `calculate_surf_score`, given a numeric
current wave height: `Low` and `Medium` have their tiers, any other skill
string falls into the `else:  # High skill` branch. -/
def waveSub (q : ℚ) (skill : String) : ℕ :=
  if skill = "Low" then
    if 1 ≤ q ∧ q ≤ 3 then 40 else if q < 1 then 20 else 0
  else if skill = "Medium" then
    if 2 ≤ q ∧ q ≤ 6 then 40 else if 1 ≤ q ∧ q < 2 then 25 else 0
  else
    if 4 ≤ q then 40 else if 2 ≤ q ∧ q < 4 then 30 else 0

/-- The wind block of `calculate_surf_score` on the current wind-speed
sample: `None` takes the `else` branch (neutral 15), a number goes through
the `< 10` / `< 15` tiers, a non-numeric value raises a `TypeError` in the
first comparison. -/
def windSub : Sample → Except PyErr ℕ
  | .null => .ok 15
  | .num q => .ok (if q < 10 then 30 else if q < 15 then 20 else 5)
  | .str _ => .error .typeError

/-- The `try:` block of `calculate_surf_score` without the final
`min(score, 100)`: looks up `hourly['wave_height'][0]`, then
`hourly.get('wind_speed_10m', [None])[0]`, then runs the wave-height
comparisons and wind comparisons, accumulating the sub-scores plus the flat
base bonus of 10.  Every failure is the exception Python would raise at
that point, in the same order. -/
def surfScoreRaw (h : Section) (p : UserPreferences) : Except PyErr ℕ :=
  match pyDictGet "wave_height" h with
  | .error e => .error e
  | .ok whSeries =>
    match pyIndex0 whSeries with
    | .error e => .error e
    | .ok whSample =>
      match pyIndex0 ((dictLookup "wind_speed_10m" h).getD [Sample.null]) with
      | .error e => .error e
      | .ok wsSample =>
        match numVal whSample with
        | .error e => .error e
        | .ok q =>
          match windSub wsSample with
          | .error e => .error e
          | .ok wind => .ok (waveSub q p.skill_level + wind + 10)

/-- The `try:` block of `calculate_surf_score` including the final
`return min(score, 100)`. -/
def surfScoreBody (h : Section) (p : UserPreferences) : Except PyErr ℕ :=
  match surfScoreRaw h p with
  | .ok n => .ok (min n 100)
  | .error e => .error e

/-- `FixedSurfDashboard.calculate_surf_score`: returns 0 when the record is
falsy or has no `'hourly'` key, otherwise runs the `try:` block; the
`except (KeyError, IndexError, TypeError)` handler returns 0.  (The theorem
`surfScoreRaw_error_kinds` shows the block can raise no other exception
kind, so the catch-all translation is exact.) -/
def calculate_surf_score (data : Option ForecastRecord) (p : UserPreferences) : ℕ :=
  match data with
  | none => 0
  | some r =>
    if r.truthy = false then 0
    else
      match r.hourly with
      | none => 0
      | some h =>
        match surfScoreBody h p with
        | .ok n => n
        | .error _ => 0

theorem waveSub_le (q : ℚ) (skill : String) : waveSub q skill ≤ 40 := by
  unfold waveSub
  split_ifs <;> norm_num

theorem waveSub_mem (q : ℚ) (skill : String) :
    waveSub q skill ∈ [0, 20, 25, 30, 40] := by
  unfold waveSub
  split_ifs <;> simp

theorem windSub_le (s : Sample) (n : ℕ) (h : windSub s = .ok n) : n ≤ 30 := by
  cases s with
  | null => simp [windSub] at h; omega
  | str s => simp [windSub] at h
  | num q =>
    simp only [windSub, Except.ok.injEq] at h
    split_ifs at h <;> omega

theorem surfScoreRaw_le (h : Section) (p : UserPreferences) (n : ℕ)
    (hr : surfScoreRaw h p = .ok n) : n ≤ 80 := by
  unfold surfScoreRaw at hr
  cases h1 : pyDictGet "wave_height" h with
  | error e1 => simp [h1] at hr
  | ok whSeries =>
    simp only [h1] at hr
    cases h2 : pyIndex0 whSeries with
    | error e1 => simp [h2] at hr
    | ok whSample =>
      simp only [h2] at hr
      cases h3 : pyIndex0 ((dictLookup "wind_speed_10m" h).getD [Sample.null]) with
      | error e1 => simp [h3] at hr
      | ok wsSample =>
        simp only [h3] at hr
        cases h4 : numVal whSample with
        | error e1 => simp [h4] at hr
        | ok q =>
          simp only [h4] at hr
          cases h5 : windSub wsSample with
          | error e1 => simp [h5] at hr
          | ok wind =>
            simp only [h5, Except.ok.injEq] at hr
            have hA := waveSub_le q p.skill_level
            have hB := windSub_le _ _ h5
            omega

theorem surfScoreRaw_error_kinds (h : Section) (p : UserPreferences)
    (e : PyErr) (hr : surfScoreRaw h p = .error e) :
    e = .keyError ∨ e = .indexError ∨ e = .typeError := by
  unfold surfScoreRaw at hr
  cases h1 : pyDictGet "wave_height" h with
  | error e1 =>
    simp only [h1, Except.error.injEq] at hr
    subst hr
    unfold pyDictGet at h1
    cases hd : dictLookup "wave_height" h with
    | some v => rw [hd] at h1; simp at h1
    | none =>
      rw [hd] at h1
      simp only [Except.error.injEq] at h1
      exact Or.inl h1.symm
  | ok whSeries =>
    simp only [h1] at hr
    cases h2 : pyIndex0 whSeries with
    | error e1 =>
      simp only [h2, Except.error.injEq] at hr
      subst hr
      cases whSeries with
      | nil =>
        simp only [pyIndex0, Except.error.injEq] at h2
        exact Or.inr (Or.inl h2.symm)
      | cons a t => simp [pyIndex0] at h2
    | ok whSample =>
      simp only [h2] at hr
      cases h3 : pyIndex0 ((dictLookup "wind_speed_10m" h).getD [Sample.null]) with
      | error e1 =>
        simp only [h3, Except.error.injEq] at hr
        subst hr
        generalize (dictLookup "wind_speed_10m" h).getD [Sample.null] = ws at h3
        cases ws with
        | nil =>
          simp only [pyIndex0, Except.error.injEq] at h3
          exact Or.inr (Or.inl h3.symm)
        | cons a t => simp [pyIndex0] at h3
      | ok wsSample =>
        simp only [h3] at hr
        cases h4 : numVal whSample with
        | error e1 =>
          simp only [h4, Except.error.injEq] at hr
          subst hr
          cases whSample with
          | num q => simp [numVal] at h4
          | str s =>
            simp only [numVal, Except.error.injEq] at h4
            exact Or.inr (Or.inr h4.symm)
          | null =>
            simp only [numVal, Except.error.injEq] at h4
            exact Or.inr (Or.inr h4.symm)
        | ok q =>
          simp only [h4] at hr
          cases h5 : windSub wsSample with
          | error e1 =>
            simp only [h5, Except.error.injEq] at hr
            subst hr
            cases wsSample with
            | num q2 => simp [windSub] at h5
            | null => simp [windSub] at h5
            | str s =>
              simp only [windSub, Except.error.injEq] at h5
              exact Or.inr (Or.inr h5.symm)
          | ok wind => simp [h5] at hr

/-- Claim C10 (counterexample): no input makes the unclamped sum exceed
100.  The wave sub-score is at most 40 and the wind sub-score at most 30,
so the sum including the flat 10 is at most 80 — the clamp can never take
effect. -/
theorem surf_score_clamp_never_fires :
    ¬ ∃ (h : Section) (p : UserPreferences) (n : ℕ),
        surfScoreRaw h p = .ok n ∧ 100 < n := by
  rintro ⟨h, p, n, hr, hn⟩
  have := surfScoreRaw_le h p n hr
  omega

/-- Claim C10 (amended): `calculate_surf_score` returns the sum of the
wave sub-score, the wind sub-score and the flat bonus of 10 passed through
`min(score, 100)`, but the unclamped sum never exceeds 80, so the clamp
never changes the result. -/
theorem surf_score_clamp_amended (h : Section) (daily : Option Section)
    (other : List (String × String)) (p : UserPreferences) (n : ℕ)
    (hr : surfScoreRaw h p = .ok n) :
    n ≤ 80 ∧
      calculate_surf_score (some ⟨some h, daily, other⟩) p = min n 100 ∧
      min n 100 = n := by
  have hb := surfScoreRaw_le h p n hr
  refine ⟨hb, ?_, ?_⟩
  · simp [calculate_surf_score, ForecastRecord.truthy, surfScoreBody, hr]
  · omega

/-- Witness for `surf_score_clamp_amended`: two-foot waves, 8 mph wind,
medium skill — the raw sum is 40 + 30 + 10 = 80 and the clamp is the
identity on it. -/
theorem surf_score_clamp_amended_witness :
    (80 : ℕ) ≤ 80 ∧
      calculate_surf_score
          (some ⟨some [("wave_height", [Sample.num 2]),
            ("wind_speed_10m", [Sample.num 8])], none, []⟩)
          ⟨"Medium", "Funboard", "Any"⟩ = min 80 100 ∧
      min (80 : ℕ) 100 = 80 :=
  surf_score_clamp_amended
    [("wave_height", [Sample.num 2]), ("wind_speed_10m", [Sample.num 8])]
    none [] ⟨"Medium", "Funboard", "Any"⟩ 80 (by rfl)

/-- There is a numeric current wave-height sample: `hourly['wave_height']`
exists, is non-empty and its first element is a number. -/
def hasWaveSample (h : Section) : Bool :=
  match dictLookup "wave_height" h with
  | some (Sample.num _ :: _) => true
  | _ => false

theorem calculate_surf_score_le (data : Option ForecastRecord)
    (p : UserPreferences) : calculate_surf_score data p ≤ 100 := by
  cases data with
  | none => simp [calculate_surf_score]
  | some r =>
    cases ht : r.truthy with
    | false => simp [calculate_surf_score, ht]
    | true =>
      cases hh : r.hourly with
      | none => simp [calculate_surf_score, ht, hh]
      | some h =>
        cases hr : surfScoreRaw h p with
        | error e => simp [calculate_surf_score, surfScoreBody, ht, hh, hr]
        | ok m =>
          have hc : calculate_surf_score (some r) p = min m 100 := by
            simp [calculate_surf_score, surfScoreBody, ht, hh, hr]
          rw [hc]
          omega

theorem surfScoreRaw_noWave (h : Section) (p : UserPreferences)
    (hw : hasWaveSample h = false) : ∃ e, surfScoreRaw h p = .error e := by
  cases hd : dictLookup "wave_height" h with
  | none => exact ⟨.keyError, by simp [surfScoreRaw, pyDictGet, hd]⟩
  | some l =>
    cases l with
    | nil =>
      exact ⟨.indexError, by simp [surfScoreRaw, pyDictGet, hd, pyIndex0]⟩
    | cons a t =>
      cases a with
      | num q => simp [hasWaveSample, hd] at hw
      | str s =>
        cases hws : (dictLookup "wind_speed_10m" h).getD [Sample.null] with
        | nil =>
          exact ⟨.indexError, by simp [surfScoreRaw, pyDictGet, hd, pyIndex0, hws]⟩
        | cons b bt =>
          exact ⟨.typeError,
            by simp [surfScoreRaw, pyDictGet, hd, pyIndex0, hws, numVal]⟩
      | null =>
        cases hws : (dictLookup "wind_speed_10m" h).getD [Sample.null] with
        | nil =>
          exact ⟨.indexError, by simp [surfScoreRaw, pyDictGet, hd, pyIndex0, hws]⟩
        | cons b bt =>
          exact ⟨.typeError,
            by simp [surfScoreRaw, pyDictGet, hd, pyIndex0, hws, numVal]⟩

/-- Claim C4: for every record — absent, falsy, hourly section missing,
wave-height series missing, empty, or starting with a null sample — and
every preferences value with a valid skill level, `calculate_surf_score`
returns a value in [0,100]; every exception the `try:` block can raise is
one of the three kinds the handler catches (so none escapes); and whenever
the record is absent, lacks an hourly section, or lacks a numeric current
wave-height sample at index 0, the result is exactly 0. -/
theorem surf_score_safety (data : Option ForecastRecord) (p : UserPreferences)
    (hskill : p.skill_level = "Low" ∨ p.skill_level = "Medium" ∨
      p.skill_level = "High") :
    calculate_surf_score data p ≤ 100 ∧
      (∀ (h : Section) (e : PyErr), surfScoreRaw h p = .error e →
        e = .keyError ∨ e = .indexError ∨ e = .typeError) ∧
      (data = none → calculate_surf_score data p = 0) ∧
      (∀ r : ForecastRecord, data = some r → r.hourly = none →
        calculate_surf_score data p = 0) ∧
      (∀ (r : ForecastRecord) (h : Section), data = some r →
        r.hourly = some h → hasWaveSample h = false →
        calculate_surf_score data p = 0) := by
  refine ⟨calculate_surf_score_le data p,
    fun h e he => surfScoreRaw_error_kinds h p e he, ?_, ?_, ?_⟩
  · rintro rfl
    rfl
  · rintro r rfl hh
    cases ht : r.truthy with
    | false => simp [calculate_surf_score, ht]
    | true => simp [calculate_surf_score, ht, hh]
  · rintro r h rfl hh hw
    obtain ⟨e, he⟩ := surfScoreRaw_noWave h p hw
    cases ht : r.truthy with
    | false => simp [calculate_surf_score, ht]
    | true => simp [calculate_surf_score, surfScoreBody, ht, hh, he]

/-- Witness for `surf_score_safety` at a malformed record: the hourly
section exists but its wave-height series starts with a null sample; the
score is 0 and stays in [0,100]. -/
theorem surf_score_safety_witness :
    calculate_surf_score (some ⟨some [("wave_height", [Sample.null])], none, []⟩)
        ⟨"Low", "Longboard", "Any"⟩ ≤ 100 ∧
      (∀ (h : Section) (e : PyErr),
        surfScoreRaw h ⟨"Low", "Longboard", "Any"⟩ = .error e →
        e = .keyError ∨ e = .indexError ∨ e = .typeError) ∧
      ((some ⟨some [("wave_height", [Sample.null])], none, []⟩ :
          Option ForecastRecord) = none →
        calculate_surf_score (some ⟨some [("wave_height", [Sample.null])], none, []⟩)
          ⟨"Low", "Longboard", "Any"⟩ = 0) ∧
      (∀ r : ForecastRecord,
        (some ⟨some [("wave_height", [Sample.null])], none, []⟩ :
          Option ForecastRecord) = some r → r.hourly = none →
        calculate_surf_score (some ⟨some [("wave_height", [Sample.null])], none, []⟩)
          ⟨"Low", "Longboard", "Any"⟩ = 0) ∧
      (∀ (r : ForecastRecord) (h : Section),
        (some ⟨some [("wave_height", [Sample.null])], none, []⟩ :
          Option ForecastRecord) = some r → r.hourly = some h →
        hasWaveSample h = false →
        calculate_surf_score (some ⟨some [("wave_height", [Sample.null])], none, []⟩)
          ⟨"Low", "Longboard", "Any"⟩ = 0) :=
  surf_score_safety (some ⟨some [("wave_height", [Sample.null])], none, []⟩)
    ⟨"Low", "Longboard", "Any"⟩ (Or.inl rfl)

/-- The wave sub-score exactly as claim C2 states it, with the `Low`
40-point tier right-open: height in [1,3).  This follows the claim's words,
for comparison against the code. -/
def waveSubClaimed (skill : String) (q : ℚ) : ℕ :=
  if skill = "Low" then
    if 1 ≤ q ∧ q < 3 then 40 else if q < 1 then 20 else 0
  else if skill = "Medium" then
    if 2 ≤ q ∧ q ≤ 6 then 40 else if 1 ≤ q ∧ q < 2 then 25 else 0
  else
    if 4 ≤ q then 40 else if 2 ≤ q ∧ q < 4 then 30 else 0

/-- The wave sub-score as amended: identical to the claim's tiers except
that the `Low` 40-point tier is the closed interval [1,3] — the code tests
`1 <= current_wave_height <= 3`, inclusive on both ends. -/
def waveSubAmended (skill : String) (q : ℚ) : ℕ :=
  if skill = "Low" then
    if 1 ≤ q ∧ q ≤ 3 then 40 else if q < 1 then 20 else 0
  else if skill = "Medium" then
    if 2 ≤ q ∧ q ≤ 6 then 40 else if 1 ≤ q ∧ q < 2 then 25 else 0
  else
    if 4 ≤ q then 40 else if 2 ≤ q ∧ q < 4 then 30 else 0

/-- The wind sub-score as the claim states it: the `<10`/`<15` tiers when a
numeric speed is present, a flat neutral 15 when the sample is absent. -/
def windSubClaimed : Option ℚ → ℕ
  | none => 15
  | some w => if w < 10 then 30 else if w < 15 then 20 else 5

/-- The current wind-speed sample as the claim describes it: `some none` =
absent (missing key, or a null sample at index 0), `some (some w)` = a
numeric speed `w`.  `none` marks the series shapes the claim's wording does
not cover (key present but the series empty, or a non-numeric sample), on
which the code raises inside the `try:` and returns 0. -/
def windReading (h : Section) : Option (Option ℚ) :=
  match dictLookup "wind_speed_10m" h with
  | none => some none
  | some [] => none
  | some (Sample.null :: _) => some none
  | some (Sample.num w :: _) => some (some w)
  | some (Sample.str _ :: _) => none

theorem waveSub_eq_amended (q : ℚ) (skill : String) :
    waveSub q skill = waveSubAmended skill q := rfl

/-- Claim C2 (counterexample): at current wave height 3 with Low skill and
no wind data, the claim's tiers ([1,3) → 40, so height 3 → 0) predict
0 + 15 + 10 = 25, but the code's inclusive test `1 <= h <= 3` awards the
40-point tier and returns 40 + 15 + 10 = 65. -/
theorem surf_score_low_tier_counterexample :
    calculate_surf_score
        (some ⟨some [("wave_height", [Sample.num 3])], none, []⟩)
        ⟨"Low", "Funboard", "Any"⟩ = 65 ∧
      waveSubClaimed "Low" 3 + windSubClaimed none + 10 = 25 := by
  constructor
  · rfl
  · rfl

/-- Claim C2 (amended): for a record with an hourly section whose
wave-height series has a numeric sample at index 0, a valid skill level,
and a wind-speed entry that is either absent, null-headed, or numeric (the
shapes the claim covers), `calculate_surf_score` is the wave sub-score —
with the `Low` 40-point tier the closed interval [1,3] — plus the claimed
wind sub-score plus the flat 10, clamped at 100; and the wave sub-score is
always one of {0, 20, 25, 30, 40}. -/
theorem surf_score_formula_amended (h : Section) (daily : Option Section)
    (other : List (String × String)) (p : UserPreferences) (q : ℚ)
    (tl : List Sample) (w : Option ℚ)
    (hwave : dictLookup "wave_height" h = some (Sample.num q :: tl))
    (hskill : p.skill_level = "Low" ∨ p.skill_level = "Medium" ∨
      p.skill_level = "High")
    (hwind : windReading h = some w) :
    calculate_surf_score (some ⟨some h, daily, other⟩) p =
        min (waveSubAmended p.skill_level q + windSubClaimed w + 10) 100 ∧
      waveSubAmended p.skill_level q ∈ [0, 20, 25, 30, 40] := by
  have hmem : waveSubAmended p.skill_level q ∈ [0, 20, 25, 30, 40] := by
    rw [← waveSub_eq_amended]
    exact waveSub_mem q p.skill_level
  refine ⟨?_, hmem⟩
  have hraw : surfScoreRaw h p = .ok (waveSub q p.skill_level + windSubClaimed w + 10) := by
    cases hd : dictLookup "wind_speed_10m" h with
    | none =>
      simp only [windReading, hd, Option.some.injEq] at hwind
      subst hwind
      simp [surfScoreRaw, pyDictGet, hwave, pyIndex0, hd, numVal, windSub,
        windSubClaimed]
    | some l =>
      cases l with
      | nil => simp [windReading, hd] at hwind
      | cons b bt =>
        cases b with
        | num ws =>
          simp only [windReading, hd, Option.some.injEq] at hwind
          subst hwind
          simp [surfScoreRaw, pyDictGet, hwave, pyIndex0, hd, numVal, windSub,
            windSubClaimed]
        | str s => simp [windReading, hd] at hwind
        | null =>
          simp only [windReading, hd, Option.some.injEq] at hwind
          subst hwind
          simp [surfScoreRaw, pyDictGet, hwave, pyIndex0, hd, numVal, windSub,
            windSubClaimed]
  rw [← waveSub_eq_amended]
  simp [calculate_surf_score, ForecastRecord.truthy, surfScoreBody, hraw]

/-- Witness for `surf_score_formula_amended`: two-foot waves, 8 mph wind,
medium skill. -/
theorem surf_score_formula_amended_witness :
    calculate_surf_score
        (some ⟨some [("wave_height", [Sample.num 2]),
          ("wind_speed_10m", [Sample.num 8])], none, []⟩)
        ⟨"Medium", "Funboard", "Any"⟩ =
        min (waveSubAmended "Medium" 2 + windSubClaimed (some 8) + 10) 100 ∧
      waveSubAmended "Medium" 2 ∈ [0, 20, 25, 30, 40] :=
  surf_score_formula_amended
    [("wave_height", [Sample.num 2]), ("wind_speed_10m", [Sample.num 8])]
    none [] ⟨"Medium", "Funboard", "Any"⟩ 2 [] (some 8) rfl
    (Or.inr (Or.inl rfl)) rfl

/-- One entry of the static `SD_SURF_SPOTS` registry. -/
structure SpotInfo where
  lat : ℚ
  lon : ℚ
  break_type : String
  skill_level : String
  ideal_boards : List String
  description : String
  tide_station : String
deriving DecidableEq, Repr

/-- The static `SD_SURF_SPOTS` registry, in source (insertion) order. -/
def SD_SURF_SPOTS : List (String × SpotInfo) :=
  [("Ocean Beach", ⟨32.7533, -117.2564, "Beach Break", "Medium",
      ["Shortboard", "Funboard"],
      "Powerful beach break with consistent waves", "9410170"⟩),
   ("Mission Beach", ⟨32.7767, -117.2533, "Beach Break", "Low",
      ["Longboard", "Funboard"],
      "Gentle beach break, great for beginners", "9410170"⟩),
   ("Pacific Beach", ⟨32.7964, -117.2581, "Beach Break", "Medium",
      ["Shortboard", "Funboard"],
      "Popular beach break with varied conditions", "9410170"⟩),
   ("La Jolla Shores", ⟨32.8328, -117.2713, "Beach Break", "Low",
      ["Longboard", "SUP"],
      "Protected cove, perfect for learning", "9410230"⟩),
   ("Blacks Beach", ⟨32.8894, -117.2519, "Beach Break", "High",
      ["Shortboard", "Gun"],
      "Powerful waves, advanced surfers only", "9410230"⟩),
   ("Swamis", ⟨33.0364, -117.2956, "Point Break", "Medium",
      ["Longboard", "Funboard"],
      "Classic point break with long rides", "9410580"⟩),
   ("Cardiff Reef", ⟨33.0139, -117.2806, "Reef Break", "High",
      ["Shortboard", "Funboard"],
      "Consistent reef break with quality waves", "9410580"⟩)]

/-- One element of the `recommendations` list built by
`recommend_surf_spots`. -/
structure Recommendation where
  spot : String
  score : ℕ
  surf_score : ℕ
  break_type : String
  skill_level : String
  description : String
  break_match : Bool
  board_match : Bool
  skill_match : Bool
deriving DecidableEq, Repr

/-- The per-spot `records` mapping (`spots_data`): a dict from spot name to
an optional combined record. -/
abbrev SpotsData := List (String × Option ForecastRecord)

/-- `spots_data.get(spot_name)`: `None` both when the key is missing and
when the stored value is `None`. -/
def spotsGet (data : SpotsData) (k : String) : Option ForecastRecord :=
  (dictLookup k data).getD none

/-- The body of the `for spot_name, spot_info in SD_SURF_SPOTS.items()`
loop of `recommend_surf_spots`: the three match flags, the current surf
score, and the composite `rec_score` with its +20/+15/+25 bonuses (no
clamp). -/
def mkRecommendation (p : UserPreferences) (data : SpotsData)
    (name : String) (info : SpotInfo) : Recommendation :=
  let break_match : Bool :=
    decide (p.break_type = "Any" ∨ info.break_type = p.break_type)
  let board_match : Bool := decide (p.board_length ∈ info.ideal_boards)
  let surf_score := calculate_surf_score (spotsGet data name) p
  let skill_match : Bool := decide (p.skill_level = info.skill_level)
  let rec_score := surf_score + (if break_match then 20 else 0) +
    (if board_match then 15 else 0) + (if skill_match then 25 else 0)
  ⟨name, rec_score, surf_score, info.break_type, info.skill_level,
    info.description, break_match, board_match, skill_match⟩

/-- The unsorted `recommendations` list, in registry order. -/
def buildRecommendations (p : UserPreferences) (data : SpotsData) :
    List Recommendation :=
  SD_SURF_SPOTS.map (fun x => mkRecommendation p data x.1 x.2)

/-- The order used by `sorted(recommendations, key=lambda x: x['score'],
reverse=True)`: descending by composite score. -/
def recGE (a b : Recommendation) : Prop := b.score ≤ a.score

instance : DecidableRel recGE := fun _ b => Nat.decLe b.score _

instance : IsTotal Recommendation recGE := ⟨fun a b => le_total b.score a.score⟩

instance : IsTrans Recommendation recGE :=
  ⟨fun _ _ _ hab hbc => le_trans hbc hab⟩

/-- `FixedSurfDashboard.recommend_surf_spots`.  Python's `sorted` with
`reverse=True` is the unique stable descending sort by the key; insertion
sort under `recGE` computes exactly that list (sortedness is
`List.sorted_insertionSort`, stability is `filter_insertionSort_score`
below). -/
def recommend_surf_spots (p : UserPreferences) (data : SpotsData) :
    List Recommendation :=
  List.insertionSort recGE (buildRecommendations p data)

theorem buildRecommendations_map_spot (p : UserPreferences) (data : SpotsData) :
    (buildRecommendations p data).map (fun r => r.spot) =
      SD_SURF_SPOTS.map (fun x => x.1) := rfl

theorem filter_orderedInsert_score (s : ℕ) (a : Recommendation)
    (l : List Recommendation) :
    (List.orderedInsert recGE a l).filter (fun r => r.score == s) =
      if a.score == s then a :: l.filter (fun r => r.score == s)
      else l.filter (fun r => r.score == s) := by
  induction l with
  | nil =>
    cases hc : (a.score == s) <;>
      simp [List.orderedInsert, List.filter_cons, hc]
  | cons x t ih =>
    by_cases hax : recGE a x
    · rw [List.orderedInsert_of_le recGE t hax]
      cases hc : (a.score == s) <;> simp [List.filter_cons, hc]
    · have hxa : a.score < x.score := Nat.lt_of_not_le hax
      simp only [List.orderedInsert, if_neg hax, List.filter_cons]
      cases hc : (a.score == s) with
      | true =>
        have hs : a.score = s := by simpa using hc
        have hx : (x.score == s) = false := by
          rw [beq_eq_false_iff_ne]
          omega
        simp [hx, ih, hc, List.filter_cons]
      | false =>
        cases hx : (x.score == s) <;>
          simp [hx, ih, hc, List.filter_cons]

theorem filter_insertionSort_score (s : ℕ) (l : List Recommendation) :
    (List.insertionSort recGE l).filter (fun r => r.score == s) =
      l.filter (fun r => r.score == s) := by
  induction l with
  | nil => rfl
  | cons a t ih =>
    simp only [List.insertionSort]
    rw [filter_orderedInsert_score, ih, List.filter_cons]

/-- Claim C6: for every preferences value and every records mapping, the
recommendation sequence is sorted non-increasingly by composite score, and
ties keep the original registry order: filtering the output to any fixed
composite score yields exactly the corresponding subsequence of the
unsorted registry-ordered list, whose spots are the registry names in
insertion order. -/
theorem recommend_sorted_stable (p : UserPreferences) (data : SpotsData) :
    List.Sorted recGE (recommend_surf_spots p data) ∧
      (∀ s : ℕ,
        (recommend_surf_spots p data).filter (fun r => r.score == s) =
          (buildRecommendations p data).filter (fun r => r.score == s)) ∧
      (buildRecommendations p data).map (fun r => r.spot) =
        SD_SURF_SPOTS.map (fun x => x.1) :=
  ⟨List.sorted_insertionSort recGE _,
    fun s => filter_insertionSort_score s _,
    buildRecommendations_map_spot p data⟩

/-- Claim C7: every recommendation's composite score is the
current-condition score of that spot's record plus 20 for a break match
(preference `Any` or equal break type), 15 when the preferred board is
among the spot's ideal boards, and 25 for equal skill levels, with no
upper clamp; and in the §8.9 Swamis scenario (Medium/Funboard/Any
preferences, wave height 3, wind speed 8) the current score is 80 and the
composite 140. -/
theorem recommend_composite_formula :
    (∀ (p : UserPreferences) (data : SpotsData) (rec : Recommendation),
      rec ∈ recommend_surf_spots p data →
      ∃ info : SpotInfo, (rec.spot, info) ∈ SD_SURF_SPOTS ∧
        rec.surf_score = calculate_surf_score (spotsGet data rec.spot) p ∧
        rec.score = rec.surf_score +
          (if p.break_type = "Any" ∨ info.break_type = p.break_type then 20
            else 0) +
          (if p.board_length ∈ info.ideal_boards then 15 else 0) +
          (if p.skill_level = info.skill_level then 25 else 0)) ∧
      ∃ rec ∈ recommend_surf_spots ⟨"Medium", "Funboard", "Any"⟩
          [("Swamis", some ⟨some [("wave_height", [Sample.num 3]),
            ("wind_speed_10m", [Sample.num 8])], none, []⟩)],
        rec.spot = "Swamis" ∧ rec.surf_score = 80 ∧ rec.score = 140 := by
  constructor
  · intro p data rec hmem
    rw [recommend_surf_spots, List.mem_insertionSort] at hmem
    obtain ⟨x, hx, hrec⟩ := List.mem_map.mp hmem
    refine ⟨x.2, ?_, ?_, ?_⟩
    · rw [← hrec]
      simpa [mkRecommendation] using hx
    · rw [← hrec]
      rfl
    · rw [← hrec]
      simp [mkRecommendation]
  · decide

/-- The recommendation that `recommend_surf_spots` produces for Ocean Beach
under Medium/Funboard/Any preferences and an empty records mapping. -/
def oceanBeachRec : Recommendation :=
  ⟨"Ocean Beach", 60, 0, "Beach Break", "Medium",
    "Powerful beach break with consistent waves", true, true, true⟩

/-- Witness for `recommend_composite_formula` at the Ocean Beach
recommendation under Medium/Funboard/Any preferences and empty records. -/
theorem recommend_composite_formula_witness :
    ∃ info : SpotInfo, (oceanBeachRec.spot, info) ∈ SD_SURF_SPOTS ∧
      oceanBeachRec.surf_score =
        calculate_surf_score (spotsGet [] oceanBeachRec.spot)
          ⟨"Medium", "Funboard", "Any"⟩ ∧
      oceanBeachRec.score = oceanBeachRec.surf_score +
        (if ("Any" : String) = "Any" ∨ info.break_type = "Any" then 20
          else 0) +
        (if ("Funboard" : String) ∈ info.ideal_boards then 15 else 0) +
        (if ("Medium" : String) = info.skill_level then 25 else 0) :=
  recommend_composite_formula.1 ⟨"Medium", "Funboard", "Any"⟩ [] oceanBeachRec
    (by decide)

/-- Claim C8: for every preferences value and every records mapping —
including an empty one — the output has exactly one recommendation per
registered spot (7 here): its length is 7, its spots are a permutation of
the registry names, and a spot whose record is absent from the mapping
still appears, with current-condition score 0. -/
theorem recommend_covers_registry (p : UserPreferences) (data : SpotsData) :
    (recommend_surf_spots p data).length = 7 ∧
      ((recommend_surf_spots p data).map (fun r => r.spot)).Perm
        (SD_SURF_SPOTS.map (fun x => x.1)) ∧
      ∀ rec ∈ recommend_surf_spots p data,
        spotsGet data rec.spot = none → rec.surf_score = 0 := by
  refine ⟨?_, ?_, ?_⟩
  · rw [recommend_surf_spots, List.length_insertionSort]
    rfl
  · have hperm :=
      (List.perm_insertionSort recGE (buildRecommendations p data)).map
        (fun r => r.spot)
    rw [buildRecommendations_map_spot] at hperm
    exact hperm
  · intro rec hmem hget
    rw [recommend_surf_spots, List.mem_insertionSort] at hmem
    obtain ⟨x, hx, hrec⟩ := List.mem_map.mp hmem
    have hsp : rec.spot = x.1 := by rw [← hrec]; rfl
    rw [hsp] at hget
    rw [← hrec]
    simp [mkRecommendation, hget, calculate_surf_score]

/-- Witness for `recommend_covers_registry`: the empty records mapping
still yields 7 recommendations, and Ocean Beach (absent from the mapping)
appears with current-condition score 0. -/
theorem recommend_covers_registry_witness :
    (recommend_surf_spots ⟨"Medium", "Funboard", "Any"⟩ []).length = 7 ∧
      oceanBeachRec.surf_score = 0 :=
  ⟨(recommend_covers_registry ⟨"Medium", "Funboard", "Any"⟩ []).1,
    (recommend_covers_registry ⟨"Medium", "Funboard", "Any"⟩ []).2.2
      oceanBeachRec (by decide) rfl⟩

/-- Decimal digit value of a character, when it is one. -/
def digitVal (c : Char) : Option ℕ :=
  if c.isDigit then some (c.toNat - 48) else none

/-- Days in a month with leap years, as validated by the CPython
`datetime` constructor. -/
def daysInMonth (y m : ℕ) : ℕ :=
  if m = 2 then
    if y % 4 = 0 ∧ (y % 100 ≠ 0 ∨ y % 400 = 0) then 29 else 28
  else if m = 4 ∨ m = 6 ∨ m = 9 ∨ m = 11 then 30
  else 31

/-- Matches a one-or-two-digit `strptime` field at the head of `cs`,
following the CPython regex alternation order: the two-digit alternatives
first (when they form a value `ok2` accepts), backtracking to the
one-digit alternative if the rest of the pattern (the continuation `k`)
fails. -/
def matchField (ok2 ok1 : ℕ → Bool) (cs : List Char)
    (k : ℕ → List Char → Option α) : Option α :=
  match cs with
  | [] => none
  | [c1] =>
    match digitVal c1 with
    | some d1 => if ok1 d1 then k d1 [] else none
    | none => none
  | c1 :: c2 :: rest =>
    match digitVal c1, digitVal c2 with
    | some d1, some d2 =>
      let two := 10 * d1 + d2
      if ok2 two then
        match k two rest with
        | some r => some r
        | none => if ok1 d1 then k d1 (c2 :: rest) else none
      else if ok1 d1 then k d1 (c2 :: rest) else none
    | some d1, none => if ok1 d1 then k d1 (c2 :: rest) else none
    | none, _ => none

/-- A timestamp parsed from `'%Y-%m-%d %H:%M'`. -/
structure DateTimeHM where
  year : ℕ
  month : ℕ
  day : ℕ
  hour : ℕ
  minute : ℕ
deriving DecidableEq, Repr

/-- Model of CPython `datetime.strptime(s, '%Y-%m-%d %H:%M')`: a 4-digit
year, one-or-two-digit month/day/hour/minute fields per the `_strptime`
regexes with the literal separators, the whole string consumed, then the
`datetime` range validation (year at least 1, day within the month). -/
def strptimeYmdHM (s : String) : Option DateTimeHM :=
  match s.toList with
  | y1 :: y2 :: y3 :: y4 :: '-' :: rest1 =>
    match digitVal y1, digitVal y2, digitVal y3, digitVal y4 with
    | some a, some b, some c, some d =>
      let year := 1000 * a + 100 * b + 10 * c + d
      matchField (fun v => decide (1 ≤ v ∧ v ≤ 12)) (fun v => decide (1 ≤ v))
        rest1 (fun month rest2 =>
          match rest2 with
          | '-' :: rest3 =>
            matchField (fun v => decide (1 ≤ v ∧ v ≤ 31))
              (fun v => decide (1 ≤ v)) rest3 (fun day rest4 =>
                match rest4 with
                | ' ' :: rest5 =>
                  matchField (fun v => decide (v ≤ 23)) (fun _ => true) rest5
                    (fun hour rest6 =>
                      match rest6 with
                      | ':' :: rest7 =>
                        matchField (fun v => decide (v ≤ 59)) (fun _ => true)
                          rest7 (fun minute rest8 =>
                            match rest8 with
                            | [] =>
                              if 1 ≤ year ∧ day ≤ daysInMonth year month then
                                some ⟨year, month, day, hour, minute⟩
                              else none
                            | _ => none)
                      | _ => none)
                | _ => none)
          | _ => none)
    | _, _, _, _ => none
  | _ => none

/-- Digits collected from the head of a character list, with the rest. -/
def splitDigits : List Char → List ℕ × List Char
  | [] => ([], [])
  | c :: t =>
    match digitVal c with
    | some d =>
      let r := splitDigits t
      (d :: r.1, r.2)
    | none => ([], c :: t)

/-- The natural number a digit list denotes. -/
def digitsToNat (ds : List ℕ) : ℕ := ds.foldl (fun a d => 10 * a + d) 0

/-- Model of Python `float(str)` on finite decimal literals: optional
surrounding spaces and sign, digits with an optional fractional part and
an optional decimal exponent, denoting the exact rational value of the
literal.  (`inf`/`nan` spellings and underscore digit separators are not
modelled; none occur in NOAA tide values.) -/
def pyFloat (s : String) : Option ℚ :=
  let cs0 := s.toList.dropWhile (fun c => c = ' ')
  let cs := (cs0.reverse.dropWhile (fun c => c = ' ')).reverse
  let signed : Bool × List Char :=
    match cs with
    | '-' :: t => (true, t)
    | '+' :: t => (false, t)
    | _ => (false, cs)
  let ipr := splitDigits signed.2
  let fpr : List ℕ × List Char :=
    match ipr.2 with
    | '.' :: t => splitDigits t
    | _ => ([], ipr.2)
  if ipr.1.isEmpty ∧ fpr.1.isEmpty then none
  else
    let mantNum : ℕ :=
      digitsToNat ipr.1 * 10 ^ fpr.1.length + digitsToNat fpr.1
    let signApply : ℚ → ℚ := fun q => if signed.1 then -q else q
    match fpr.2 with
    | [] => some (signApply (mkRat mantNum (10 ^ fpr.1.length)))
    | e :: t =>
      if e = 'e' ∨ e = 'E' then
        let esigned : Bool × List Char :=
          match t with
          | '-' :: t2 => (true, t2)
          | '+' :: t2 => (false, t2)
          | _ => (false, t)
        let edr := splitDigits esigned.2
        if edr.1.isEmpty ∨ !edr.2.isEmpty then none
        else
          let ev := digitsToNat edr.1
          if esigned.1 then
            some (signApply (mkRat mantNum (10 ^ (fpr.1.length + ev))))
          else
            some (signApply (mkRat (mantNum * 10 ^ ev) (10 ^ fpr.1.length)))
      else none

/-- One raw NOAA prediction entry: the `'t'` and `'v'` fields when present
(a missing field makes the subscript raise `KeyError`). -/
structure PredEntry where
  t : Option String
  v : Option String
deriving DecidableEq, Repr

/-- The body of the `for p in predictions:` loop of `create_tide_chart`.
Inside one `try:`, the code appends the parsed timestamp to `times` and
only *then* parses `p['v']` and appends to `heights`; `except (ValueError,
KeyError): continue` abandons the rest of the iteration.  So a failure
while handling `p['v']` happens after `times` was already extended. -/
def tideStep (acc : List DateTimeHM × List ℚ) (p : PredEntry) :
    List DateTimeHM × List ℚ :=
  match p.t with
  | none => acc
  | some ts =>
    match strptimeYmdHM ts with
    | none => acc
    | some dt =>
      match p.v with
      | none => (acc.1 ++ [dt], acc.2)
      | some vs =>
        match pyFloat vs with
        | none => (acc.1 ++ [dt], acc.2)
        | some q => (acc.1 ++ [dt], acc.2 ++ [q])

/-- `FixedSurfDashboard.create_tide_chart`, modelled on the
`tide_data['predictions']` list (an absent or falsy `tide_data`, or one
without a `'predictions'` key, is the `none` input).  Yields the
`(times, heights)` series handed to the chart trace, or nothing when
`times` stays empty. -/
def create_tide_chart (tide : Option (List PredEntry)) :
    Option (List DateTimeHM × List ℚ) :=
  match tide with
  | none => none
  | some preds =>
    let r := preds.foldl tideStep ([], [])
    if r.1.isEmpty then none else some r

/-- Claim C5 (code bug): the loop body appends the parsed timestamp to
`times` *before* parsing `p['v']`, so an entry with a parsable `'t'` and an
unparsable `'v'` contributes its timestamp to `times` but nothing to
`heights` — the two series end up with different lengths and a chart is
produced although zero entries parsed fully, contradicting the claimed
atomic skipping of failing entries.  On the spec's own three-entry example
(whose bad entry fails already at the timestamp) the code does produce the
claimed 2-entry series, in order, with heights 3.2 and 3.5. -/
theorem tide_partial_append_bug :
    create_tide_chart (some [⟨some "2024-01-01 00:00", some "x"⟩]) =
        some ([⟨2024, 1, 1, 0, 0⟩], []) ∧
      create_tide_chart (some
          [⟨some "2024-01-01 00:00", some "3.2"⟩,
           ⟨some "bad", some "x"⟩,
           ⟨some "2024-01-01 01:00", some "3.5"⟩]) =
        some ([⟨2024, 1, 1, 0, 0⟩, ⟨2024, 1, 1, 1, 0⟩],
          [mkRat 16 5, mkRat 7 2]) := by
  constructor
  · rfl
  · rfl

/-- Zero-padded two-digit rendering used by `strftime('%H:%M')`. -/
def pad2 (n : ℕ) : String :=
  (if n < 10 then "0" else "") ++ toString n

/-- Model of `datetime.fromisoformat` on the shapes the dashboard feeds it
(`YYYY-MM-DD[ HH:MM[:SS]]`, i.e. Open-Meteo ISO times after the
`'T'` → `' '` replacement), composed with `.strftime('%H:%M')`: yields the
hour-minute label, or nothing where CPython raises `ValueError`. -/
def isoLabelHM (s : String) : Option String :=
  match s.toList with
  | y1 :: y2 :: y3 :: y4 :: '-' :: m1 :: m2 :: '-' :: d1 :: d2 :: rest =>
    match digitVal y1, digitVal y2, digitVal y3, digitVal y4,
        digitVal m1, digitVal m2, digitVal d1, digitVal d2 with
    | some a, some b, some c, some d, some e, some f, some g, some h2 =>
      let year := 1000 * a + 100 * b + 10 * c + d
      let month := 10 * e + f
      let day := 10 * g + h2
      if 1 ≤ year ∧ 1 ≤ month ∧ month ≤ 12 ∧ 1 ≤ day ∧
          day ≤ daysInMonth year month then
        match rest with
        | [] => some "00:00"
        | ' ' :: hh1 :: hh2 :: ':' :: mm1 :: mm2 :: rest2 =>
          match digitVal hh1, digitVal hh2, digitVal mm1, digitVal mm2 with
          | some p1, some p2, some q1, some q2 =>
            let hour := 10 * p1 + p2
            let minute := 10 * q1 + q2
            if hour ≤ 23 ∧ minute ≤ 59 then
              match rest2 with
              | [] => some (pad2 hour ++ ":" ++ pad2 minute)
              | ':' :: s1 :: s2 :: [] =>
                match digitVal s1, digitVal s2 with
                | some r1, some r2 =>
                  if 10 * r1 + r2 ≤ 59 then
                    some (pad2 hour ++ ":" ++ pad2 minute)
                  else none
                | _, _ => none
              | _ => none
            else none
          | _, _, _, _ => none
        | _ => none
      else none
    | _, _, _, _, _, _, _, _ => none
  | _ => none

/-- `t.replace('T', ' ')`: every `'T'` becomes a space. -/
def replaceTspace (s : String) : String :=
  String.mk (s.toList.map (fun c => if c = 'T' then ' ' else c))

/-- One element of the time-label comprehension:
`datetime.fromisoformat(t.replace('T', ' ')).strftime('%H:%M')`.  A
non-string sample has no `.replace`, raising `AttributeError`; a malformed
string raises `ValueError`.  Neither is caught by the function. -/
def sampleToLabel : Sample → Except PyErr String
  | .str s =>
    match isoLabelHM (replaceTspace s) with
    | some l => .ok l
    | none => .error .valueError
  | _ => .error .attributeError

/-- Left-to-right evaluation of a list comprehension whose element
expression can raise: the first exception aborts the whole comprehension. -/
def mapExcept (f : α → Except PyErr β) : List α → Except PyErr (List β)
  | [] => .ok []
  | x :: t =>
    match f x with
    | .error e => .error e
    | .ok y =>
      match mapExcept f t with
      | .error e => .error e
      | .ok ys => .ok (y :: ys)

/-- The first loop of `create_wave_height_heatmap`: the `'time'` series of
the first truthy record that has an `'hourly'` section with a `'time'`
key. -/
def firstTimeSeries : SpotsData → Option (List Sample)
  | [] => none
  | (_, d) :: rest =>
    match d with
    | some r =>
      if r.truthy then
        match r.hourly with
        | some h =>
          match dictLookup "time" h with
          | some ts => some ts
          | none => firstTimeSeries rest
        | none => firstTimeSeries rest
      else firstTimeSeries rest
    | none => firstTimeSeries rest

/-- The row built for one spot: `wave_heights = data['hourly']['wave_height'][:24]`
(a fresh list, so the record is not modified), zero-appended while shorter
than 24, then sliced `[:24]` again on append to the matrix. -/
def padTo24 (l : List Sample) : List Sample :=
  ((l.take 24) ++
    List.replicate (24 - (l.take 24).length) (Sample.num 0)).take 24

/-- The second loop of `create_wave_height_heatmap`: one `(name, row)` per
truthy record with an `'hourly'` section holding a `'wave_height'` key, in
mapping order. -/
def heatmapRows (spots : SpotsData) : List (String × List Sample) :=
  spots.filterMap (fun x =>
    match x.2 with
    | some r =>
      if r.truthy then
        match r.hourly with
        | some h =>
          match dictLookup "wave_height" h with
          | some wh => some (x.1, padTo24 wh)
          | none => none
        | none => none
      else none
    | none => none)

/-- `FixedSurfDashboard.create_wave_height_heatmap`, modelled up to the
data handed to `px.imshow`: the time labels, the spot names and the
wave-height matrix; `none` on each early `return None` guard, and an
`Except` error where label formatting raises (uncaught). -/
def create_wave_height_heatmap (spots : SpotsData) :
    Except PyErr (Option (List String × List String × List (List Sample))) :=
  if spots.isEmpty then .ok none
  else
    match firstTimeSeries spots with
    | none => .ok none
    | some ts =>
      match mapExcept sampleToLabel (ts.take 24) with
      | .error e => .error e
      | .ok labels =>
        if labels.isEmpty then .ok none
        else if (heatmapRows spots).isEmpty then .ok none
        else .ok (some (labels, (heatmapRows spots).map (fun r => r.1),
          (heatmapRows spots).map (fun r => r.2)))

/-- The claim's condition for a spot to contribute a row: its record is
present and its hourly section has a `wave_height` metric.  (The code also
checks record truthiness, but a record with an hourly section is never
falsy.) -/
def hasWaveMetric (d : Option ForecastRecord) : Bool :=
  match d with
  | some r =>
    match r.hourly with
    | some h => (dictLookup "wave_height" h).isSome
    | none => false
  | none => false

/-- The wave-height series of a record that has one. -/
def waveSeries (d : Option ForecastRecord) : List Sample :=
  match d with
  | some r =>
    match r.hourly with
    | some h => (dictLookup "wave_height" h).getD []
    | none => []
  | none => []

/-- A row as the claim words it: a series longer than 24 samples truncated
to its first 24, a shorter one right-padded with zeros to length 24. -/
def rowClaimed (wh : List Sample) : List Sample :=
  if 24 ≤ wh.length then wh.take 24
  else wh ++ List.replicate (24 - wh.length) (Sample.num 0)

theorem rowClaimed_length (wh : List Sample) : (rowClaimed wh).length = 24 := by
  unfold rowClaimed
  by_cases h : 24 ≤ wh.length
  · rw [if_pos h, List.length_take]
    omega
  · rw [if_neg h]
    simp only [List.length_append, List.length_replicate]
    omega

theorem padTo24_eq_rowClaimed (l : List Sample) : padTo24 l = rowClaimed l := by
  unfold padTo24 rowClaimed
  by_cases h : 24 ≤ l.length
  · rw [if_pos h]
    have ht : (l.take 24).length = 24 := by
      rw [List.length_take]; omega
    rw [ht]
    simp [List.take_take]
  · rw [if_neg h]
    have ht : l.take 24 = l := List.take_of_length_le (by omega)
    rw [ht]
    apply List.take_of_length_le
    simp only [List.length_append, List.length_replicate]
    omega

theorem truthy_of_hourly (r : ForecastRecord) (h : Section)
    (hh : r.hourly = some h) : r.truthy = true := by
  simp [ForecastRecord.truthy, hh]

theorem heatmapRows_eq (spots : SpotsData) :
    heatmapRows spots =
      (spots.filter (fun x => hasWaveMetric x.2)).map
        (fun x => (x.1, rowClaimed (waveSeries x.2))) := by
  induction spots with
  | nil => rfl
  | cons x rest ih =>
    obtain ⟨name, d⟩ := x
    cases d with
    | none =>
      simp [heatmapRows, List.filterMap_cons, hasWaveMetric,
        List.filter_cons] at ih ⊢
      exact ih
    | some r =>
      cases hh : r.hourly with
      | none =>
        have ht : r.truthy = r.truthy := rfl
        cases htv : r.truthy <;>
          simpa [heatmapRows, List.filterMap_cons, hasWaveMetric,
            List.filter_cons, hh, htv] using ih
      | some h =>
        have htv : r.truthy = true := truthy_of_hourly r h hh
        cases hw : dictLookup "wave_height" h with
        | none =>
          simpa [heatmapRows, List.filterMap_cons, hasWaveMetric,
            List.filter_cons, hh, htv, hw] using ih
        | some wh =>
          simpa [heatmapRows, List.filterMap_cons, hasWaveMetric,
            List.filter_cons, hh, htv, hw, waveSeries,
            padTo24_eq_rowClaimed] using ih

/-- Claim C9: whenever `create_wave_height_heatmap` builds a grid, every
row has exactly 24 entries; the names and rows are, in the insertion order
of the records mapping, exactly one per spot whose record has a
`wave_height` hourly metric (others contribute no row), each row being the
series truncated to its first 24 samples or right-padded with zeros to 24
— so a 10-sample series yields its 10 samples followed by 14 zeros. -/
theorem heatmap_rows_shape (spots : SpotsData) (labels names : List String)
    (matrix : List (List Sample))
    (hres : create_wave_height_heatmap spots =
      .ok (some (labels, names, matrix))) :
    (∀ row ∈ matrix, row.length = 24) ∧
      names = (spots.filter (fun x => hasWaveMetric x.2)).map (fun x => x.1) ∧
      matrix = (spots.filter (fun x => hasWaveMetric x.2)).map
        (fun x => rowClaimed (waveSeries x.2)) ∧
      ∀ wh : List Sample, wh.length = 10 →
        rowClaimed wh = wh ++ List.replicate 14 (Sample.num 0) := by
  have hmain : names = (heatmapRows spots).map (fun r => r.1) ∧
      matrix = (heatmapRows spots).map (fun r => r.2) := by
    unfold create_wave_height_heatmap at hres
    by_cases hempty : spots.isEmpty
    · rw [if_pos hempty] at hres
      simp at hres
    · rw [if_neg hempty] at hres
      cases hft : firstTimeSeries spots with
      | none => rw [hft] at hres; simp at hres
      | some ts =>
        simp only [hft] at hres
        cases hml : mapExcept sampleToLabel (ts.take 24) with
        | error e => simp only [hml] at hres; simp at hres
        | ok ls =>
          simp only [hml] at hres
          by_cases hle : ls.isEmpty
          · rw [if_pos hle] at hres; simp at hres
          · rw [if_neg hle] at hres
            by_cases hre : (heatmapRows spots).isEmpty
            · rw [if_pos hre] at hres; simp at hres
            · rw [if_neg hre] at hres
              simp only [Except.ok.injEq, Option.some.injEq,
                Prod.mk.injEq] at hres
              exact ⟨hres.2.1.symm, hres.2.2.symm⟩
  obtain ⟨hn, hm⟩ := hmain
  rw [heatmapRows_eq] at hn hm
  refine ⟨?_, ?_, ?_, ?_⟩
  · intro row hrow
    rw [hm, List.map_map] at hrow
    obtain ⟨x, _, hx⟩ := List.mem_map.mp hrow
    rw [← hx]
    exact rowClaimed_length _
  · rw [hn, List.map_map]
    rfl
  · rw [hm, List.map_map]
    rfl
  · intro wh hl
    unfold rowClaimed
    rw [if_neg (by omega), hl]

/-- A single-spot records mapping with a one-entry time axis and a
10-sample wave-height series, used to exercise the heatmap builder. -/
def demoSpots : SpotsData :=
  [("Ocean Beach", some ⟨some
      [("time", [Sample.str "2024-01-01T06:00"]),
       ("wave_height", List.replicate 10 (Sample.num 1))], none, []⟩)]

/-- Witness for `heatmap_rows_shape`: on `demoSpots` the builder yields one
row of 24 entries — the 10 samples followed by 14 zeros. -/
theorem heatmap_rows_shape_witness :
    (∀ row ∈ [List.replicate 10 (Sample.num 1) ++
        List.replicate 14 (Sample.num 0)], row.length = 24) ∧
      ["Ocean Beach"] =
        (demoSpots.filter (fun x => hasWaveMetric x.2)).map (fun x => x.1) ∧
      [List.replicate 10 (Sample.num 1) ++ List.replicate 14 (Sample.num 0)] =
        (demoSpots.filter (fun x => hasWaveMetric x.2)).map
          (fun x => rowClaimed (waveSeries x.2)) ∧
      ∀ wh : List Sample, wh.length = 10 →
        rowClaimed wh = wh ++ List.replicate 14 (Sample.num 0) :=
  heatmap_rows_shape demoSpots ["06:00"] ["Ocean Beach"]
    [List.replicate 10 (Sample.num 1) ++ List.replicate 14 (Sample.num 0)]
    (by rfl)
